import Mathlib

/-!
Verification of `torchdrug/core/logger.py`: a shallow embedding of the
logger adapter family (`LoggingLogger`, `WandbLogger`, `AimLogger`) and
proofs about its console formatting, routing and initialization behavior.

Modelling conventions:
* A metric value (a Python number / 0-d tensor) is modelled by `TVal`,
  which records its `%g` rendering (field `g`) and the scalar obtained by
  `.item()` (field `item`); the numeric formatting itself is delegated to
  the host language in the source and is therefore abstract here.
* A record (Python `dict`) is an association list `List (String × TVal)`;
  `sorted(record.keys())` is insertion sort by the code-point lexicographic
  order on `String`, which is Python's order on `str`.
* Console output is the list of emitted lines; calls into the external
  SDKs are reified as events (`WField`, `AimEvent`, config updates).
-/

/-- A metric value: `g` is its `%g` rendering, `item` the scalar returned
by `.item()`. -/
structure TVal where
  g : String
  item : Int
deriving DecidableEq, Repr

/-- Python's `<` on strings: lexicographic comparison of code points. -/
def strLtb : List Char → List Char → Bool
  | [], [] => false
  | [], _ :: _ => true
  | _ :: _, [] => false
  | a :: as, b :: bs =>
    if a.toNat < b.toNat then true
    else if b.toNat < a.toNat then false
    else strLtb as bs

/-- Python's `<=` on strings, as a relation. -/
def strLe (a b : String) : Prop := strLtb b.data a.data = false

instance : DecidableRel strLe := fun a b =>
  inferInstanceAs (Decidable (strLtb b.data a.data = false))

/-- `sorted(record.keys())`: the keys of the record in Python's sorted
order (lexicographic on code points). -/
def sortedKeys (record : List (String × TVal)) : List String :=
  List.insertionSort strLe (record.map Prod.fst)

/-- `record[k]`: Python dict lookup (keys are unique in a dict; the
default is unreachable for keys drawn from the record). -/
def dget (record : List (String × TVal)) (k : String) : TVal :=
  (record.lookup k).getD ⟨"", 0⟩

/-- Python `s.endswith(suffix)`. -/
def pyEndsWith (s suffix : String) : Bool :=
  suffix.data.isSuffixOf s.data

/-- Python `s.split(c)` for a one-character separator: splits at every
occurrence, keeping empty pieces. -/
def splitOnChar (c : Char) : List Char → List (List Char)
  | [] => [[]]
  | x :: xs =>
    if x = c then [] :: splitOnChar c xs
    else
      match splitOnChar c xs with
      | [] => [[x]]
      | p :: ps => (x :: p) :: ps

namespace pretty

/-- Modelled from the spec: `torchdrug.utils.pretty.separator`, the divider
line printed before `batch` categories (the `pretty` module is outside this
source tree; the spec only requires it to differ from `pretty.line`). -/
def separator : String := ">>>>>>>>>>>>>>>>>>>>>>>>>>>>>>"

/-- Modelled from the spec: `torchdrug.utils.pretty.line`, the divider line
printed before `epoch` categories. -/
def line : String := "------------------------------"

end pretty

namespace LoggingLogger

/-- The metric line `"%s: %g" % (k, record[k])`. -/
def plainLine (record : List (String × TVal)) (k : String) : String :=
  k ++ ": " ++ (dget record k).g

/-- The divider lines emitted at the top of `LoggingLogger.log`. -/
def dividerLines (category : String) : List String :=
  if pyEndsWith category "batch" then [pretty.separator]
  else if pyEndsWith category "epoch" then [pretty.line]
  else []

/-- `LoggingLogger.log(record, step_id, category)`: the list of console
lines it emits, translated clause by clause from the source. -/
def log (record : List (String × TVal)) (step_id : Nat) (category : String) :
    List String :=
  let _ := step_id
  dividerLines category ++
    (if category = "train/epoch" then
      (sortedKeys record).map (fun k => "average " ++ plainLine record k)
    else
      (sortedKeys record).map (fun k => plainLine record k))

/-- The line emitted for key `k`: the `train/epoch` branch prepends
`"average "`, every other branch emits the plain line. -/
def emittedLine (record : List (String × TVal)) (category : String)
    (k : String) : String :=
  if category = "train/epoch" then "average " ++ plainLine record k
  else plainLine record k

/-- Modelled from the spec: `pprint.pformat` (Python standard library,
outside this source tree); the spec only requires that `log_config`
pretty-prints the mapping, so the rendering itself is abstract. -/
def pformat (config : List (String × String)) : String :=
  String.intercalate ", " (config.map (fun kv => kv.1 ++ ": " ++ kv.2))

/-- `LoggingLogger.log_config(config)`: console lines emitted. -/
def log_config (config : List (String × String)) : List String :=
  [pformat config]

end LoggingLogger

/-- The run handle held by an external-tracking adapter: either the
already-active run of the SDK, or a freshly created one. -/
inductive RunHandle where
  | existing (id : Nat)
  | fresh
deriving DecidableEq, Repr

/-- The state of the external SDK at adapter construction time. -/
structure SdkEnv where
  installed : Bool
  activeRun : Option Nat
deriving DecidableEq, Repr

namespace WandbLogger

/-- The warning emitted when a wandb run is already in progress. -/
def reuseWarning : String :=
  "There is a wandb run already in progress and newly created instances of `WandbLogger` will reuse this run. If this is not desired, call `wandb.finish()` or `WandbLogger.finish()` before instantiating `WandbLogger`."

/-- `WandbLogger.__init__`: raises if `wandb` is not importable; otherwise
warns and reuses `wandb.run` when one is active, else calls `wandb.init`.
Returns the run handle and the warnings emitted. -/
def init (env : SdkEnv) : Except String (RunHandle × List String) :=
  if env.installed = false then
    .error ("Wandb is not found. Please install it with `pip install wandb`")
  else
    match env.activeRun with
    | some r => .ok (.existing r, [reuseWarning])
    | none => .ok (.fresh, [])

/-- A value in the dict submitted to `wandb.run.log`: a metric value or
the appended step field. -/
inductive WField where
  | metric (v : TVal)
  | step (i : Nat)
deriving DecidableEq, Repr

/-- `category.split("/")[-1]`. -/
def stepName (category : String) : String :=
  String.mk ((splitOnChar '/' category.data).getLastD [])

/-- The dict submitted to `self.run.log` by `WandbLogger.log`: input keys
namespaced as `category/key` with unchanged values, plus the step field. -/
def submitted (record : List (String × TVal)) (step_id : Nat)
    (category : String) : List (String × WField) :=
  record.map (fun kv => (category ++ "/" ++ kv.1, WField.metric kv.2)) ++
    [(stepName category, WField.step step_id)]

/-- `WandbLogger.log`: console lines (via `super().log`) and the record
submitted to the run. -/
def log (record : List (String × TVal)) (step_id : Nat) (category : String) :
    List String × List (String × WField) :=
  (LoggingLogger.log record step_id category, submitted record step_id category)

/-- A config-store effect on the external session. -/
inductive ConfigEffect where
  | update (config : List (String × String))
  | assign (key : String) (config : List (String × String))
deriving DecidableEq, Repr

/-- `WandbLogger.log_config`: console lines (via `super().log_config`) and
the `self.run.config.update` call. -/
def log_config (config : List (String × String)) :
    List String × ConfigEffect :=
  (LoggingLogger.log_config config, .update config)

end WandbLogger

namespace AimLogger

/-- `AimLogger.__init__`: raises if `aim` is not importable; otherwise it
always constructs a fresh `aim.Run` and never inspects any active session,
emitting no warnings. -/
def init (env : SdkEnv) : Except String (RunHandle × List String) :=
  if env.installed = false then
    .error ("Aim is not found. Please install it with `pip install aim`")
  else
    .ok (.fresh, [])

/-- An effect on the Aim run: `self.aim_run.track(value, step, name,
context={contextKey: contextValue})`, or the subscript assignment
`self.aim_run[name] = value.item()`. -/
inductive AimEvent where
  | track (value : TVal) (step : Nat) (name : String)
      (contextKey : String) (contextValue : String)
  | setItem (name : String) (value : Int)
deriving DecidableEq, Repr

/-- The tracking calls made by `AimLogger.log`; `none` when
`context_type, context_specific = category.split("/")` fails to unpack. -/
def events (record : List (String × TVal)) (step_id : Nat)
    (category : String) : Option (List AimEvent) :=
  match splitOnChar '/' category.data with
  | [ct, cs] =>
    some
      (if category = "train/epoch" then
        (sortedKeys record).map (fun k =>
          .track (dget record k) step_id k (String.mk ct ++ "_average")
            (String.mk cs))
      else if category = "valid/epoch" then
        (sortedKeys record).map (fun k => .setItem k (dget record k).item)
      else
        (sortedKeys record).map (fun k =>
          .track (dget record k) step_id k (String.mk ct) (String.mk cs)))
  | _ => none

/-- `AimLogger.log`: console lines via `super().log`, then the tracking
calls (the stdout debug banners it prints are not modelled; no claim
concerns them). -/
def log (record : List (String × TVal)) (step_id : Nat) (category : String) :
    List String × Option (List AimEvent) :=
  (LoggingLogger.log record step_id category, events record step_id category)

/-- `AimLogger.log_config`: it performs only `self.aim_run["config"] =
confg_dict`; it does not call `super().log_config`, so it emits no console
lines. -/
def log_config (config : List (String × String)) :
    List String × WandbLogger.ConfigEffect :=
  ([], .assign "config" config)

end AimLogger

/-! ### Order lemmas for Python's string comparison -/

theorem strLtb_asymm (a b : List Char) (h : strLtb a b = true) :
    strLtb b a = false := by
  induction a generalizing b with
  | nil =>
    cases b with
    | nil => simp [strLtb] at h
    | cons y ys => rfl
  | cons x xs ih =>
    cases b with
    | nil => simp [strLtb] at h
    | cons y ys =>
      simp only [strLtb] at h ⊢
      by_cases hxy : x.toNat < y.toNat
      · have hyx : ¬ y.toNat < x.toNat := by omega
        simp [hyx, hxy]
      · simp only [if_neg hxy] at h
        by_cases hyx : y.toNat < x.toNat
        · simp [hyx] at h
        · simp only [if_neg hyx] at h ⊢
          simp only [if_neg hxy]
          exact ih ys h

theorem strLtb_ge_trans (a b c : List Char)
    (h1 : strLtb b a = false) (h2 : strLtb c b = false) :
    strLtb c a = false := by
  induction a generalizing b c with
  | nil => cases c <;> rfl
  | cons x xs ih =>
    cases b with
    | nil => simp [strLtb] at h1
    | cons y ys =>
      cases c with
      | nil => simp [strLtb] at h2
      | cons z zs =>
        simp only [strLtb] at h1 h2 ⊢
        by_cases hyx : y.toNat < x.toNat
        · simp [hyx] at h1
        · by_cases hzy : z.toNat < y.toNat
          · simp [hzy] at h2
          · have hzx : ¬ z.toNat < x.toNat := by omega
            simp only [if_neg hyx, if_neg hzy] at h1 h2
            simp only [if_neg hzx]
            by_cases hxz : x.toNat < z.toNat
            · simp [hxz]
            · have hxy : ¬ x.toNat < y.toNat := by omega
              have hyz : ¬ y.toNat < z.toNat := by omega
              simp only [if_neg hxy] at h1
              simp only [if_neg hyz] at h2
              simp only [if_neg hxz]
              exact ih ys zs h1 h2

instance : IsTrans String strLe :=
  ⟨fun a b c h1 h2 => strLtb_ge_trans a.data b.data c.data h1 h2⟩

instance : IsTotal String strLe := by
  refine ⟨fun a b => ?_⟩
  cases hh : strLtb b.data a.data with
  | false => exact Or.inl hh
  | true => exact Or.inr (strLtb_asymm b.data a.data hh)

/-! ### Suffix and split helper lemmas -/

theorem pyEndsWith_epoch_not_batch (s : String)
    (h : pyEndsWith s "epoch" = true) : pyEndsWith s "batch" = false := by
  rw [pyEndsWith] at h ⊢
  rw [List.isSuffixOf_iff_suffix] at h
  by_contra hb
  rw [Bool.not_eq_false, List.isSuffixOf_iff_suffix] at hb
  obtain ⟨t1, e1⟩ := h
  obtain ⟨t2, e2⟩ := hb
  have hcontra : ("epoch".data : List Char) = "batch".data :=
    List.append_inj_right' (e1.trans e2.symm) rfl
  exact absurd hcontra (by decide)

theorem splitOnChar_ne_nil (c : Char) (l : List Char) :
    splitOnChar c l ≠ [] := by
  cases l with
  | nil => simp [splitOnChar]
  | cons x xs =>
    rw [splitOnChar]
    split
    · simp
    · split <;> simp

theorem splitOnChar_pieces (c : Char) (l : List Char) :
    ∀ p ∈ splitOnChar c l, c ∉ p := by
  induction l with
  | nil =>
    intro p hp
    simp [splitOnChar] at hp
    simp [hp]
  | cons x xs ih =>
    intro p hp
    rw [splitOnChar] at hp
    by_cases hx : x = c
    · rw [if_pos hx] at hp
      rcases List.mem_cons.mp hp with h | h
      · simp [h]
      · exact ih p h
    · rw [if_neg hx] at hp
      cases hsp : splitOnChar c xs with
      | nil => exact absurd hsp (splitOnChar_ne_nil c xs)
      | cons q qs =>
        rw [hsp] at hp
        rcases List.mem_cons.mp hp with h | h
        · subst h
          intro hmem
          rcases List.mem_cons.mp hmem with h' | h'
          · exact hx h'.symm
          · exact ih q (hsp ▸ List.mem_cons_self q qs) h'
        · exact ih p (hsp ▸ List.mem_cons_of_mem q h)

theorem stepName_no_slash (category : String) :
    '/' ∉ (WandbLogger.stepName category).data := by
  rw [WandbLogger.stepName]
  have hne := splitOnChar_ne_nil '/' category.data
  cases hsp : splitOnChar '/' category.data with
  | nil => exact absurd hsp hne
  | cons q qs =>
    have hmem : (q :: qs).getLastD [] ∈ q :: qs := by
      rw [List.getLastD_cons]
      exact List.getLastD_mem_cons qs q
    exact splitOnChar_pieces '/' category.data _ (hsp ▸ hmem)

theorem slash_mem_namespaced (category k : String) :
    '/' ∈ (category ++ "/" ++ k).data := by
  rw [String.data_append, String.data_append]
  have h : '/' ∈ ("/" : String).data := by decide
  exact List.mem_append_left _ (List.mem_append_right _ h)

/-! ### Structure of the console output -/

theorem log_eq_divider_append (record : List (String × TVal)) (step_id : Nat)
    (category : String) :
    LoggingLogger.log record step_id category
      = LoggingLogger.dividerLines category
          ++ (sortedKeys record).map (LoggingLogger.emittedLine record category) := by
  by_cases h : category = "train/epoch" <;>
    simp [LoggingLogger.log, LoggingLogger.emittedLine, h]

/-- C1: for every record dictionary and every category, the console
logger's `log(record, step_id, category)` emits the per-metric lines in
alphabetically sorted order of the metric names: the output is the divider
prefix followed by one line per key, the keys taken in a sorted
rearrangement of the record's keys. -/
theorem claim_C1 (record : List (String × TVal)) (step_id : Nat)
    (category : String) :
    ∃ ks : List String,
      ks.Perm (record.map Prod.fst) ∧ List.Sorted strLe ks ∧
      LoggingLogger.log record step_id category
        = LoggingLogger.dividerLines category
            ++ ks.map (LoggingLogger.emittedLine record category) :=
  ⟨sortedKeys record,
   List.perm_insertionSort strLe (record.map Prod.fst),
   List.sorted_insertionSort strLe (record.map Prod.fst),
   log_eq_divider_append record step_id category⟩

/-- C2: every metric line the console logger prints carries the
`"average "` prefix exactly when the category is `"train/epoch"`: the
output consists of the per-key emitted lines, and the emitted line equals
the `"average "`-prefixed plain line if and only if the category is
`"train/epoch"`. -/
theorem claim_C2 (record : List (String × TVal)) (step_id : Nat)
    (category : String) (k : String) :
    LoggingLogger.log record step_id category
      = LoggingLogger.dividerLines category
          ++ (sortedKeys record).map (LoggingLogger.emittedLine record category) ∧
    (LoggingLogger.emittedLine record category k
        = "average " ++ LoggingLogger.plainLine record k
      ↔ category = "train/epoch") := by
  refine ⟨log_eq_divider_append record step_id category, ?_, ?_⟩
  · intro h
    by_contra hc
    rw [LoggingLogger.emittedLine, if_neg hc] at h
    have hlen := congrArg String.length h
    rw [String.length_append] at hlen
    have h8 : ("average " : String).length = 8 := by decide
    omega
  · intro h
    rw [LoggingLogger.emittedLine, if_pos h]

theorem claim_C2_witness :
    LoggingLogger.log [("acc", ⟨"0.9", 0⟩)] 3 "valid/epoch"
      = LoggingLogger.dividerLines "valid/epoch"
          ++ (sortedKeys [("acc", ⟨"0.9", 0⟩)]).map
              (LoggingLogger.emittedLine [("acc", ⟨"0.9", 0⟩)] "valid/epoch") ∧
    (LoggingLogger.emittedLine [("acc", ⟨"0.9", 0⟩)] "valid/epoch" "acc"
        = "average " ++ LoggingLogger.plainLine [("acc", ⟨"0.9", 0⟩)] "acc"
      ↔ ("valid/epoch" : String) = "train/epoch") :=
  claim_C2 [("acc", ⟨"0.9", 0⟩)] 3 "valid/epoch" "acc"

/-- C3: when the category ends in `"batch"` the output starts with the
separator divider; when it ends in `"epoch"` it starts with the line
divider; and the two dividers differ. -/
theorem claim_C3 (record : List (String × TVal)) (step_id : Nat)
    (category : String) :
    (pyEndsWith category "batch" = true →
      LoggingLogger.log record step_id category
        = pretty.separator
            :: (sortedKeys record).map (LoggingLogger.emittedLine record category)) ∧
    (pyEndsWith category "epoch" = true →
      LoggingLogger.log record step_id category
        = pretty.line
            :: (sortedKeys record).map (LoggingLogger.emittedLine record category)) ∧
    pretty.separator ≠ pretty.line := by
  refine ⟨?_, ?_, by decide⟩
  · intro hb
    rw [log_eq_divider_append, LoggingLogger.dividerLines, if_pos hb]
    rfl
  · intro he
    have hb := pyEndsWith_epoch_not_batch category he
    rw [log_eq_divider_append, LoggingLogger.dividerLines,
      if_neg (by simp [hb]), if_pos he]
    rfl

theorem claim_C3_witness :
    LoggingLogger.log [("a", ⟨"1", 0⟩)] 0 "train/batch"
      = pretty.separator :: (sortedKeys [("a", ⟨"1", 0⟩)]).map
          (LoggingLogger.emittedLine [("a", ⟨"1", 0⟩)] "train/batch") ∧
    LoggingLogger.log [("a", ⟨"1", 0⟩)] 0 "test/epoch"
      = pretty.line :: (sortedKeys [("a", ⟨"1", 0⟩)]).map
          (LoggingLogger.emittedLine [("a", ⟨"1", 0⟩)] "test/epoch") :=
  ⟨(claim_C3 [("a", ⟨"1", 0⟩)] 0 "train/batch").1 (by decide),
   (claim_C3 [("a", ⟨"1", 0⟩)] 0 "test/epoch").2.1 (by decide)⟩

/-- C4: on `record={"loss": 0.5, "acc": 0.9}`, `step_id=3`,
`category="train/epoch"`, the console logger emits the epoch divider, then
`"average acc: 0.9"`, then `"average loss: 0.5"`. -/
theorem claim_C4 :
    LoggingLogger.log [("loss", ⟨"0.5", 0⟩), ("acc", ⟨"0.9", 0⟩)] 3 "train/epoch"
      = [pretty.line, "average acc: 0.9", "average loss: 0.5"] := by
  decide

/-- C10: the console output of `LoggingLogger.log` does not depend on
`step_id`: two calls differing only in `step_id` produce identical
console output. -/
theorem claim_C10 (record : List (String × TVal)) (category : String)
    (s1 s2 : Nat) :
    LoggingLogger.log record s1 category = LoggingLogger.log record s2 category :=
  rfl

/-! ### Adapter construction -/

/-- C5: with the external SDK missing, each adapter's constructor fails
with an error message containing installation instructions, whatever the
session state; no adapter state is produced, so the failure precedes any
log call. -/
theorem claim_C5 (active : Option Nat) :
    ∃ msgW msgA : String,
      WandbLogger.init ⟨false, active⟩ = .error msgW ∧
      AimLogger.init ⟨false, active⟩ = .error msgA ∧
      (∃ p q, msgW = p ++ "pip install wandb" ++ q) ∧
      (∃ p q, msgA = p ++ "pip install aim" ++ q) := by
  refine ⟨_, _, rfl, rfl,
    ⟨"Wandb is not found. Please install it with `", "`", by decide⟩,
    ⟨"Aim is not found. Please install it with `", "`", by decide⟩⟩

/-- C6 counterexample: with the Aim SDK installed and a session already
active (run 7), `AimLogger.__init__` still constructs a fresh run handle
and emits no warning, so it neither warns nor reuses the active session. -/
theorem claim_C6_counterexample :
    AimLogger.init ⟨true, some 7⟩ = .ok (RunHandle.fresh, []) ∧
    RunHandle.fresh ≠ RunHandle.existing 7 :=
  ⟨rfl, by decide⟩

/-- C6 (amended): with the SDK installed, the wandb adapter warns and
reuses an active run, creating a fresh run only when none is active,
while the Aim adapter always creates a fresh run and never warns,
regardless of any active session. -/
theorem claim_C6 (env : SdkEnv) (h : env.installed = true) :
    (∀ r, env.activeRun = some r →
      WandbLogger.init env
        = .ok (RunHandle.existing r, [WandbLogger.reuseWarning])) ∧
    (env.activeRun = none → WandbLogger.init env = .ok (RunHandle.fresh, [])) ∧
    AimLogger.init env = .ok (RunHandle.fresh, []) := by
  obtain ⟨inst, active⟩ := env
  subst h
  refine ⟨?_, ?_, rfl⟩
  · intro r hr
    cases active with
    | none => cases hr
    | some r' =>
      cases hr
      rfl
  · intro hr
    cases active with
    | none => rfl
    | some r' => cases hr

theorem claim_C6_witness :
    WandbLogger.init ⟨true, some 7⟩
      = .ok (RunHandle.existing 7, [WandbLogger.reuseWarning]) ∧
    WandbLogger.init ⟨true, none⟩ = .ok (RunHandle.fresh, []) ∧
    AimLogger.init ⟨true, none⟩ = .ok (RunHandle.fresh, []) :=
  ⟨(claim_C6 ⟨true, some 7⟩ rfl).1 7 rfl,
   (claim_C6 ⟨true, none⟩ rfl).2.1 rfl,
   (claim_C6 ⟨true, none⟩ rfl).2.2⟩

/-! ### Forwarding to the external sessions -/

/-- C7: for every record, step and category, `WandbLogger.log` also logs
to the console and submits a record whose entries are exactly the input
entries with keys namespaced as `category/key` and values unchanged, plus
one step field named after the last `/`-separated segment of the category
and carrying `step_id`; the step field's name collides with no namespaced
key. -/
theorem claim_C7 (record : List (String × TVal)) (step_id : Nat)
    (category : String) :
    WandbLogger.log record step_id category
      = (LoggingLogger.log record step_id category,
          record.map (fun kv =>
            (category ++ "/" ++ kv.1, WandbLogger.WField.metric kv.2))
            ++ [(WandbLogger.stepName category, WandbLogger.WField.step step_id)]) ∧
    ∀ kv ∈ record, category ++ "/" ++ kv.1 ≠ WandbLogger.stepName category := by
  refine ⟨rfl, ?_⟩
  intro kv _ heq
  have hmem : '/' ∈ (WandbLogger.stepName category).data :=
    heq ▸ slash_mem_namespaced category kv.1
  exact stepName_no_slash category hmem

theorem claim_C7_witness :
    "train/batch" ++ "/" ++ "loss" ≠ WandbLogger.stepName "train/batch" :=
  (claim_C7 [("loss", ⟨"0.5", 0⟩)] 3 "train/batch").2
    ("loss", ⟨"0.5", 0⟩) (List.mem_singleton.mpr rfl)

/-- C8: `AimLogger.log` routes each metric by category: under
`"train/epoch"` it tracks each metric with the `train_average` context,
under `"valid/epoch"` it instead assigns each metric's `.item()` value to
the run, and under every other two-segment category it tracks each metric
with the plain `context_type: context_specific` context. -/
theorem claim_C8 (record : List (String × TVal)) (step_id : Nat) :
    AimLogger.events record step_id "train/epoch"
      = some ((sortedKeys record).map (fun k =>
          .track (dget record k) step_id k "train_average" "epoch")) ∧
    AimLogger.events record step_id "valid/epoch"
      = some ((sortedKeys record).map (fun k =>
          .setItem k (dget record k).item)) ∧
    ∀ category ct cs, splitOnChar '/' category.data = [ct, cs] →
      category ≠ "train/epoch" → category ≠ "valid/epoch" →
      AimLogger.events record step_id category
        = some ((sortedKeys record).map (fun k =>
            .track (dget record k) step_id k (String.mk ct) (String.mk cs))) := by
  refine ⟨rfl, rfl, ?_⟩
  intro category ct cs hsp h1 h2
  rw [AimLogger.events, hsp]
  simp only [if_neg h1, if_neg h2]

theorem claim_C8_witness :
    AimLogger.events [("loss", ⟨"0.5", 7⟩)] 3 "train/batch"
      = some ((sortedKeys [("loss", ⟨"0.5", 7⟩)]).map (fun k =>
          .track (dget [("loss", ⟨"0.5", 7⟩)] k) 3 k
            (String.mk "train".data) (String.mk "batch".data))) :=
  (claim_C8 [("loss", ⟨"0.5", 7⟩)] 3).2.2 "train/batch"
    "train".data "batch".data rfl (by decide) (by decide)

/-- C9 counterexample: on the concrete config `{"lr": "0.1"}`, the Aim
adapter's `log_config` emits no console lines at all, while the console
logger it wraps would pretty-print one line; so it is false that both
adapters' `log_config` also pretty-print the mapping to the console. -/
theorem claim_C9_counterexample :
    (AimLogger.log_config [("lr", "0.1")]).1 = [] ∧
    LoggingLogger.log_config [("lr", "0.1")] ≠ [] :=
  ⟨rfl, by decide⟩

/-- C9 (amended): every config mapping is forwarded to the external
session's config store by both adapters (`run.config.update` for wandb,
the `"config"` subscript assignment for Aim); `WandbLogger.log_config`
also pretty-prints the mapping to the console through the wrapped console
logger, but `AimLogger.log_config` does not call the console logger and
emits no console output. -/
theorem claim_C9 (config : List (String × String)) :
    WandbLogger.log_config config
      = ([LoggingLogger.pformat config], .update config) ∧
    AimLogger.log_config config = ([], .assign "config" config) :=
  ⟨rfl, rfl⟩
